import Mathlib

/-!
Verification of the droxion-backend services against their specification.

The development shallowly embeds the JavaScript sources:

* `server/imageSearch_free.js` — the image-search helper `searchImagesFree`
  with its Lexica primary provider and Unsplash fallback;
* `server.js` — the `POST /webhook` handler keyed by `metadata.user_id`,
  writing the paid flag to `paid_users.json`;
* the two near-duplicate `POST /stripe-webhook` variants (email-keyed and
  id-keyed) that credit coins to `users.json`.

JavaScript strings are Lean `String`s; absent or `undefined` values are
`Option`; JS truthiness on strings (empty string is falsy) is modelled by
`truthy`.  The flat JSON files become association-list stores passed in and
returned explicitly, together with a counter of store accesses.
-/

namespace Droxion

/-- JS truthiness for an optional string: `undefined`, `null` and the empty
string are falsy, every other string is truthy. -/
def truthy : Option String → Option String
  | none => none
  | some s => if s = "" then none else some s

/-- JS `String(query || "")` for an optional string argument. -/
def jsStr : Option String → String
  | none => ""
  | some s => s

/-- Whitespace characters recognised by JS `String.prototype.trim`
(the ASCII ones plus no-break space; the sources only ever meet ASCII). -/
def isJsWhitespace (c : Char) : Bool :=
  c.toNat = 32 || c.toNat = 9 || c.toNat = 10 || c.toNat = 13 ||
  c.toNat = 11 || c.toNat = 12 || c.toNat = 160

/-- JS `s.trim()`: strip leading and trailing whitespace. -/
def jsTrim (s : String) : String :=
  ⟨(((s.data.dropWhile isJsWhitespace).reverse.dropWhile isJsWhitespace).reverse)⟩

/-- Uppercase hexadecimal digit, as produced by JS `encodeURIComponent`. -/
def hexDigit (n : Nat) : Char :=
  if n < 10 then Char.ofNat (48 + n) else Char.ofNat (55 + n)

/-- Percent-encoding of one byte: `%HH` with uppercase hex. -/
def percentByte (b : Nat) : String :=
  "%" ++ (hexDigit (b / 16 % 16)).toString ++ (hexDigit (b % 16)).toString

/-- UTF-8 bytes of a Unicode code point, as JS encodes non-ASCII input. -/
def utf8Bytes (n : Nat) : List Nat :=
  if n < 128 then [n]
  else if n < 2048 then [192 + n / 64, 128 + n % 64]
  else if n < 65536 then [224 + n / 4096, 128 + n / 64 % 64, 128 + n % 64]
  else [240 + n / 262144, 128 + n / 4096 % 64, 128 + n / 64 % 64, 128 + n % 64]

/-- Characters `encodeURIComponent` leaves unescaped:
`A-Z a-z 0-9 - _ . ! ~ * ( )` and the apostrophe (code 39). -/
def uriUnreserved (c : Char) : Bool :=
  (65 ≤ c.toNat && c.toNat ≤ 90) || (97 ≤ c.toNat && c.toNat ≤ 122) ||
  (48 ≤ c.toNat && c.toNat ≤ 57) ||
  c.toNat = 45 || c.toNat = 95 || c.toNat = 46 || c.toNat = 33 ||
  c.toNat = 126 || c.toNat = 42 || c.toNat = 39 || c.toNat = 40 || c.toNat = 41

/-- JS `encodeURIComponent`. -/
def encodeURIComponent (s : String) : String :=
  String.join (s.data.map fun c =>
    if uriUnreserved c then c.toString
    else String.join ((utf8Bytes c.toNat).map percentByte))

/-! ## Image search (`server/imageSearch_free.js`) -/

/-- One raw image object of the Lexica JSON response; each field may be
absent.  Mirrors the fields read by `normalizeLexica`. -/
structure LexicaImage where
  src : Option String
  imageUrl : Option String
  jpeg : Option String
  png : Option String
  id : Option String
  prompt : Option String
deriving DecidableEq, Repr

/-- Normalized image record `{ url, pageUrl, title, source }`. -/
structure ImageItem where
  url : String
  pageUrl : String
  title : String
  source : String
deriving DecidableEq, Repr

/-- A source pill `{ title, url }`. -/
structure SourceLink where
  title : String
  url : String
deriving DecidableEq, Repr

/-- Return value of `searchImagesFree`. -/
structure SearchResult where
  images : List ImageItem
  sources : List SourceLink
deriving DecidableEq, Repr

/-- Outcome of the one outbound fetch to the Lexica API: the promise
rejects, the response is non-2xx, or it parses with `data.images` either
missing (not an array) or an array of image objects. -/
inductive FetchOutcome where
  | throwErr : FetchOutcome
  | notOk : FetchOutcome
  | ok : Option (List LexicaImage) → FetchOutcome
deriving DecidableEq, Repr

/-- The JS `a || b || c || d` chain over the four candidate url fields of a
Lexica image (`im?.src || im?.imageUrl || im?.jpeg || im?.png`). -/
def lexicaUrl (im : LexicaImage) : Option String :=
  (truthy im.src).orElse fun _ =>
    (truthy im.imageUrl).orElse fun _ =>
      (truthy im.jpeg).orElse fun _ => truthy im.png

/-- `normalizeLexica` of `server/imageSearch_free.js`: map each raw image
to an `ImageItem`, dropping entries with no usable url. -/
def normalizeLexica (images : List LexicaImage) (q : String) : List ImageItem :=
  images.filterMap fun im =>
    match lexicaUrl im with
    | none => none
    | some url => some
        { url
          pageUrl :=
            match truthy im.id with
            | some i => "https://lexica.art/prompt/" ++ i
            | none => "https://lexica.art/?q=" ++ encodeURIComponent q
          title := (truthy im.prompt).getD q
          source := "lexica.art" }

/-- The ten keyword variants of `buildUnsplashFallback`. -/
def unsplashAlts (q : String) : List String :=
  [q, q ++ " photo", q ++ " image", q ++ " wallpaper", q ++ " aesthetic",
   q ++ " hd", q ++ " landscape", q ++ " portrait", q ++ " macro", q ++ " art"]

/-- `buildUnsplashFallback(q, n)`: n Unsplash Source urls, cycling through
the keyword variants and cache-busting with `sig = i + 13`. -/
def buildUnsplashFallback (q : String) (n : Nat) : List String :=
  (List.range n).map fun i =>
    let kw := ((unsplashAlts q).get? (i % (unsplashAlts q).length)).getD ""
    "https://source.unsplash.com/900x600/?" ++ encodeURIComponent kw
      ++ "&sig=" ++ toString (i + 13)

/-- The sources list returned alongside a successful Lexica result. -/
def lexicaSources (q : String) : List SourceLink :=
  [⟨"Lexica", "https://lexica.art/?q=" ++ encodeURIComponent q⟩,
   ⟨"Google Images", "https://www.google.com/search?tbm=isch&q=" ++ encodeURIComponent q⟩,
   ⟨"Bing Images", "https://www.bing.com/images/search?q=" ++ encodeURIComponent q⟩,
   ⟨"Unsplash", "https://unsplash.com/s/photos/" ++ encodeURIComponent q⟩]

/-- The static sources list returned by the Unsplash fallback branch. -/
def fallbackSources (q : String) : List SourceLink :=
  [⟨"Google Images", "https://www.google.com/search?tbm=isch&q=" ++ encodeURIComponent q⟩,
   ⟨"Bing Images", "https://www.bing.com/images/search?q=" ++ encodeURIComponent q⟩,
   ⟨"Unsplash", "https://unsplash.com/s/photos/" ++ encodeURIComponent q⟩,
   ⟨"Lexica", "https://lexica.art/?q=" ++ encodeURIComponent q⟩]

/-- The twelve fallback image items built from `buildUnsplashFallback(q, 12)`. -/
def fallbackImages (q : String) : List ImageItem :=
  (buildUnsplashFallback q 12).map fun u =>
    { url := u
      pageUrl := "https://unsplash.com/s/photos/" ++ encodeURIComponent q
      title := q
      source := "unsplash.com" }

/-- Body of `searchImagesFree` after the query has been normalized to `q`:
try Lexica, return its normalized items when nonempty, otherwise return the
Unsplash fallback. -/
def searchCore (q : String) (r : FetchOutcome) : SearchResult :=
  let fb : SearchResult := { images := fallbackImages q, sources := fallbackSources q }
  match r with
  | .throwErr => fb
  | .notOk => fb
  | .ok none => fb
  | .ok (some images) =>
    if images.length ≠ 0 then
      let items := normalizeLexica images q
      if items.length ≠ 0 then { images := items, sources := lexicaSources q }
      else fb
    else fb

/-- Query normalization of `searchImagesFree`:
`const q = String(query || "").trim() || "image"`. -/
def normQuery (query : Option String) : String :=
  let t := jsTrim (jsStr query)
  if t = "" then "image" else t

/-- `searchImagesFree(query)` of `server/imageSearch_free.js`, with the
outcome of the Lexica fetch supplied as an explicit environment. -/
def searchImagesFree (query : Option String) (r : FetchOutcome) : SearchResult :=
  searchCore (normQuery query) r

/-! ## Stripe webhook handlers -/

/-- The parts of a checkout session the handlers read:
`session.customer_email`, `session.metadata?.user_id`,
`session.metadata?.plan` (each possibly absent). -/
structure Session where
  customer_email : Option String
  user_id : Option String
  plan : Option String
deriving DecidableEq, Repr

/-- A Stripe event as delivered by `constructEvent`: the provider event id,
the event type string, and the session object. -/
structure StripeEvent where
  id : String
  type : String
  session : Session
deriving DecidableEq, Repr

/-- Outcome of `stripe.webhooks.constructEvent(body, sig, secret)`: a
verified event, or the thrown signature/parse error message. -/
inductive VerifyResult where
  | ok : StripeEvent → VerifyResult
  | err : String → VerifyResult
deriving DecidableEq, Repr

/-- One record of `users.json`: `{ coins, plan }`. -/
structure UserRec where
  coins : Int
  plan : String
deriving DecidableEq, Repr

/-- One record of `paid_users.json`: `{ paid, date }`. -/
structure PaidRec where
  paid : Bool
  date : String
deriving DecidableEq, Repr

/-- A flat JSON store: association list in insertion order, keys unique. -/
abbrev Store (α : Type) := List (String × α)

/-- Property read `obj[k]`: the first binding of `k`, if any. -/
def lookupKey {α : Type} : Store α → String → Option α
  | [], _ => none
  | p :: t, k => if p.1 = k then some p.2 else lookupKey t k

/-- Property write `obj[k] = v`: overwrite in place when the key exists,
append otherwise (JS object insertion-order semantics). -/
def setKey {α : Type} : Store α → String → α → Store α
  | [], k, v => [(k, v)]
  | p :: t, k, v => if p.1 = k then (k, v) :: t else p :: setKey t k v

/-- The key actually used by `users[customerEmail]` when the email is
absent: JS property access stringifies `undefined` to `"undefined"`. -/
def jsPropKey : Option String → String
  | none => "undefined"
  | some s => s

/-- Response bodies the handlers produce. -/
inductive RespBody where
  | jsonReceived : RespBody
  | text : String → RespBody
deriving DecidableEq, Repr

/-- Result of one handler invocation: HTTP status, body, the store after
the request, and how many times the store file was touched (reads plus
writes). -/
structure HandlerResult (α : Type) where
  status : Nat
  body : RespBody
  store : Store α
  storeAccesses : Nat
deriving DecidableEq, Repr

/-- The plan to coins table shared by both `/stripe-webhook` variants:
starter 50, pro 150, business 400, anything else 0. -/
def coinsFor (plan : String) : Int :=
  if plan = "starter" then 50
  else if plan = "pro" then 150
  else if plan = "business" then 400
  else 0

/-- The email-keyed `/stripe-webhook` handler (first variant): on a
verified `checkout.session.completed` event, bootstrap the user at
`{coins 0, plan None}` when absent, add the plan coins and set the plan;
always acknowledge with `{received true}`. -/
def stripeWebhookHandler (verify : VerifyResult) (users : Store UserRec) :
    HandlerResult UserRec :=
  match verify with
  | .err msg => ⟨400, .text ("Webhook Error: " ++ msg), users, 0⟩
  | .ok event =>
    if event.type = "checkout.session.completed" then
      let customerEmail := jsPropKey event.session.customer_email
      let plan := (truthy event.session.plan).getD "pro"
      let rec0 := (lookupKey users customerEmail).getD ⟨0, "None"⟩
      let coinsToAdd := coinsFor plan
      ⟨200, .jsonReceived,
        setKey users customerEmail ⟨rec0.coins + coinsToAdd, plan⟩, 2⟩
    else ⟨200, .jsonReceived, users, 0⟩

/-- The id-keyed `/stripe-webhook` handler (second variant): identical to
the first except the key is `session.metadata?.user_id || "unknown"`. -/
def stripeWebhookHandler2 (verify : VerifyResult) (users : Store UserRec) :
    HandlerResult UserRec :=
  match verify with
  | .err msg => ⟨400, .text ("Webhook Error: " ++ msg), users, 0⟩
  | .ok event =>
    if event.type = "checkout.session.completed" then
      let userId := (truthy event.session.user_id).getD "unknown"
      let plan := (truthy event.session.plan).getD "pro"
      let rec0 := (lookupKey users userId).getD ⟨0, "None"⟩
      let coinsToAdd := coinsFor plan
      ⟨200, .jsonReceived,
        setKey users userId ⟨rec0.coins + coinsToAdd, plan⟩, 2⟩
    else ⟨200, .jsonReceived, users, 0⟩

/-- The `POST /webhook` handler of `server.js`: on a verified
`checkout.session.completed` event, require `metadata.user_id` (400 when
falsy, before any store access), then mark the user paid with the current
date; always acknowledge other verified event types with `{received true}`. -/
def webhookHandler (verify : VerifyResult) (paidUsers : Store PaidRec)
    (now : String) : HandlerResult PaidRec :=
  match verify with
  | .err msg => ⟨400, .text ("Webhook Error: " ++ msg), paidUsers, 0⟩
  | .ok event =>
    if event.type = "checkout.session.completed" then
      match truthy event.session.user_id with
      | none => ⟨400, .text "Missing user_id", paidUsers, 0⟩
      | some uid =>
        ⟨200, .jsonReceived, setKey paidUsers uid ⟨true, now⟩, 2⟩
    else ⟨200, .jsonReceived, paidUsers, 0⟩

/-- Coins balance of a key as the applier sees it: the stored value, or 0
for an absent record. -/
def coinsOf (s : Store UserRec) (k : String) : Int :=
  ((lookupKey s k).getD ⟨0, "None"⟩).coins

/-- Fold a list of delivered webhook requests through the email-keyed
`/stripe-webhook` handler, threading the store. -/
def applyAll (events : List VerifyResult) (users : Store UserRec) : Store UserRec :=
  events.foldl (fun s v => (stripeWebhookHandler v s).store) users

/-! ## Store lemmas -/

/-- Reading back the key just written returns the new value. -/
theorem lookupKey_setKey_self {α : Type} (s : Store α) (k : String) (v : α) :
    lookupKey (setKey s k v) k = some v := by
  induction s with
  | nil => simp [setKey, lookupKey]
  | cons a t ih =>
    by_cases h : a.1 = k
    · simp [setKey, lookupKey, h]
    · simp [setKey, lookupKey, h, ih]

/-- Writing one key leaves every other key unchanged. -/
theorem lookupKey_setKey_ne {α : Type} (s : Store α) (k u : String) (v : α)
    (h : u ≠ k) :
    lookupKey (setKey s k v) u = lookupKey s u := by
  have h' : ¬ k = u := fun hh => h hh.symm
  induction s with
  | nil => simp [setKey, lookupKey, h']
  | cons a t ih =>
    by_cases ha : a.1 = k
    · simp [setKey, lookupKey, ha, h, h']
    · by_cases hau : a.1 = u
      · simp [setKey, lookupKey, ha, hau, h, h']
      · simp [setKey, lookupKey, ha, hau, ih]

/-- The plan table never emits a negative coin delta. -/
theorem coinsFor_nonneg (p : String) : 0 ≤ coinsFor p := by
  unfold coinsFor
  split
  · omega
  split
  · omega
  split
  · omega
  · omega

/-- Every record of the store carries a non-negative balance. -/
def storeNN (s : Store UserRec) : Prop :=
  ∀ k r, lookupKey s k = some r → 0 ≤ r.coins

/-- Balances read through `coinsOf` are non-negative on a valid store. -/
theorem coinsOf_nonneg (s : Store UserRec) (h : storeNN s) (k : String) :
    0 ≤ coinsOf s k := by
  unfold coinsOf
  cases hk : lookupKey s k with
  | none => simp
  | some r => simpa using h k r hk

/-- One delivery through the email-keyed handler never decreases any
balance. -/
theorem handler_coins_mono (v : VerifyResult) (s : Store UserRec) (u : String) :
    coinsOf s u ≤ coinsOf (stripeWebhookHandler v s).store u := by
  cases v with
  | err m => simp [stripeWebhookHandler]
  | ok e =>
    by_cases ht : e.type = "checkout.session.completed"
    · simp only [stripeWebhookHandler, ht, if_pos]
      by_cases hu : u = jsPropKey e.session.customer_email
      · subst hu
        unfold coinsOf
        rw [lookupKey_setKey_self]
        have := coinsFor_nonneg ((truthy e.session.plan).getD "pro")
        simp
        omega
      · unfold coinsOf
        rw [lookupKey_setKey_ne _ _ _ _ hu]
    · simp [stripeWebhookHandler, ht]

/-- One delivery through the email-keyed handler preserves validity of the
store. -/
theorem handler_preserves_nn (v : VerifyResult) (s : Store UserRec)
    (h : storeNN s) : storeNN (stripeWebhookHandler v s).store := by
  cases v with
  | err m => simpa [stripeWebhookHandler] using h
  | ok e =>
    by_cases ht : e.type = "checkout.session.completed"
    · simp only [stripeWebhookHandler, ht, if_pos]
      intro k r hk
      by_cases hku : k = jsPropKey e.session.customer_email
      · subst hku
        rw [lookupKey_setKey_self] at hk
        cases hk
        have h1 := coinsOf_nonneg s h (jsPropKey e.session.customer_email)
        have h2 := coinsFor_nonneg ((truthy e.session.plan).getD "pro")
        unfold coinsOf at h1
        simp
        omega
      · rw [lookupKey_setKey_ne _ _ _ _ hku] at hk
        exact h k r hk
    · simp only [stripeWebhookHandler, ht, if_neg]
      simpa using h

/-- Folding any event sequence through the handler preserves validity. -/
theorem applyAll_nn (events : List VerifyResult) (s : Store UserRec)
    (h : storeNN s) : storeNN (applyAll events s) := by
  induction events generalizing s with
  | nil => simpa [applyAll] using h
  | cons v t ih =>
    have : applyAll (v :: t) s = applyAll t (stripeWebhookHandler v s).store := by
      simp [applyAll]
    rw [this]
    exact ih _ (handler_preserves_nn v s h)

/-! ## Claims about the webhook handlers -/

/-- C1: the claim says a retry delivery of the same payment event (same
eventId) leaves the stored user record unchanged, with no second credit.
The `/stripe-webhook` handler has no idempotency tracking at all: this
theorem evaluates the code on the same `checkout.session.completed` event
(id `evt_1`, email `u1`, plan `pro`) delivered twice and shows the coins
balance is credited again, moving from 150 to 300, so the stored record
after the second application differs from the record after the first. -/
theorem C1_retry_double_credits :
    (stripeWebhookHandler
        (.ok ⟨"evt_1", "checkout.session.completed", ⟨some "u1", none, some "pro"⟩⟩)
        []).store = [("u1", ⟨150, "pro"⟩)] ∧
    (stripeWebhookHandler
        (.ok ⟨"evt_1", "checkout.session.completed", ⟨some "u1", none, some "pro"⟩⟩)
        [("u1", ⟨150, "pro"⟩)]).store = [("u1", ⟨300, "pro"⟩)] ∧
    ([("u1", (⟨300, "pro"⟩ : UserRec))] : Store UserRec) ≠ [("u1", ⟨150, "pro"⟩)] := by
  decide

/-- C4: a webhook request whose signature fails verification is answered
with status 400 and the entitlement store is neither read nor written
(zero store accesses, store unchanged), in all three handler variants. -/
theorem C4_bad_signature_rejected (msg now : String) (users : Store UserRec)
    (paid : Store PaidRec) :
    webhookHandler (.err msg) paid now
      = ⟨400, .text ("Webhook Error: " ++ msg), paid, 0⟩ ∧
    stripeWebhookHandler (.err msg) users
      = ⟨400, .text ("Webhook Error: " ++ msg), users, 0⟩ ∧
    stripeWebhookHandler2 (.err msg) users
      = ⟨400, .text ("Webhook Error: " ++ msg), users, 0⟩ :=
  ⟨rfl, rfl, rfl⟩

/-- C5: a verified completed-checkout event whose plan name is outside the
plan table (not starter, pro or business, and not empty, which would
default to pro) credits a coin delta of 0 — the coins balance of the
`users.json` record is unchanged — while the `server.js` handler still
marks the same event paid with `paid = true` in `paid_users.json`. -/
theorem C5_unknown_plan_zero_delta_paid (eid email uid now p : String)
    (users : Store UserRec) (paid : Store PaidRec)
    (hp0 : p ≠ "") (hp1 : p ≠ "starter") (hp2 : p ≠ "pro") (hp3 : p ≠ "business")
    (huid : uid ≠ "") :
    coinsOf (stripeWebhookHandler
        (.ok ⟨eid, "checkout.session.completed", ⟨some email, some uid, some p⟩⟩)
        users).store email = coinsOf users email ∧
    lookupKey (webhookHandler
        (.ok ⟨eid, "checkout.session.completed", ⟨some email, some uid, some p⟩⟩)
        paid now).store uid = some ⟨true, now⟩ := by
  constructor
  · simp only [stripeWebhookHandler, if_pos]
    unfold coinsOf
    simp [jsPropKey, truthy, hp0, lookupKey_setKey_self, coinsFor, hp1, hp2, hp3]
  · simp [webhookHandler, truthy, huid, lookupKey_setKey_self]

/-- C5 witness: instantiated at the unknown plan `gold`, user `u1`. -/
theorem C5_unknown_plan_zero_delta_paid_witness :
    coinsOf (stripeWebhookHandler
        (.ok ⟨"evt_5", "checkout.session.completed", ⟨some "e1", some "u1", some "gold"⟩⟩)
        []).store "e1" = coinsOf [] "e1" ∧
    lookupKey (webhookHandler
        (.ok ⟨"evt_5", "checkout.session.completed", ⟨some "e1", some "u1", some "gold"⟩⟩)
        [] "2026-01-01").store "u1" = some ⟨true, "2026-01-01"⟩ :=
  C5_unknown_plan_zero_delta_paid "evt_5" "e1" "u1" "2026-01-01" "gold" [] []
    (by decide) (by decide) (by decide) (by decide) (by decide)

/-- C7: applying a verified completed-checkout event for a user key with
no existing record bootstraps the record; in `users.json` the new coins
balance equals the coin delta of the plan (`coinsFor plan`), and in
`paid_users.json` the paid flag of the key is true. -/
theorem C7_bootstrap_fresh_key (eid u plan now : String) (users : Store UserRec)
    (paid : Store PaidRec) (hu : lookupKey users u = none)
    (hplan : plan ≠ "") (huid : u ≠ "") :
    lookupKey (stripeWebhookHandler
        (.ok ⟨eid, "checkout.session.completed", ⟨some u, some u, some plan⟩⟩)
        users).store u = some ⟨coinsFor plan, plan⟩ ∧
    lookupKey (webhookHandler
        (.ok ⟨eid, "checkout.session.completed", ⟨some u, some u, some plan⟩⟩)
        paid now).store u = some ⟨true, now⟩ := by
  constructor
  · simp [stripeWebhookHandler, jsPropKey, truthy, hplan, hu, lookupKey_setKey_self]
  · simp [webhookHandler, truthy, huid, lookupKey_setKey_self]

/-- C7 witness: instantiated at the fresh key `u1` and plan `pro`. -/
theorem C7_bootstrap_fresh_key_witness :
    lookupKey (stripeWebhookHandler
        (.ok ⟨"evt_7", "checkout.session.completed", ⟨some "u1", some "u1", some "pro"⟩⟩)
        []).store "u1" = some ⟨coinsFor "pro", "pro"⟩ ∧
    lookupKey (webhookHandler
        (.ok ⟨"evt_7", "checkout.session.completed", ⟨some "u1", some "u1", some "pro"⟩⟩)
        [] "2026-01-01").store "u1" = some ⟨true, "2026-01-01"⟩ :=
  C7_bootstrap_fresh_key "evt_7" "u1" "pro" "2026-01-01" [] []
    (by decide) (by decide) (by decide)

/-- C8: on a store whose records all carry non-negative balances, one
delivery through the coins-crediting handler never decreases any
balance read through `coinsOf`, and the balance of every key after any
sequence of deliveries starting from such a store is non-negative. -/
theorem C8_coins_monotone_nonneg (v : VerifyResult) (events : List VerifyResult)
    (users : Store UserRec) (u : String) (h : storeNN users) :
    coinsOf users u ≤ coinsOf (stripeWebhookHandler v users).store u ∧
    0 ≤ coinsOf (applyAll events users) u :=
  ⟨handler_coins_mono v users u, coinsOf_nonneg _ (applyAll_nn events users h) u⟩

/-- C8 witness: instantiated at the empty store and a single pro event. -/
theorem C8_coins_monotone_nonneg_witness :
    coinsOf [] "u1" ≤ coinsOf (stripeWebhookHandler
        (.ok ⟨"evt_8", "checkout.session.completed", ⟨some "u1", none, some "pro"⟩⟩)
        []).store "u1" ∧
    0 ≤ coinsOf (applyAll
        [.ok ⟨"evt_8", "checkout.session.completed", ⟨some "u1", none, some "pro"⟩⟩]
        []) "u1" :=
  C8_coins_monotone_nonneg
    (.ok ⟨"evt_8", "checkout.session.completed", ⟨some "u1", none, some "pro"⟩⟩)
    [.ok ⟨"evt_8", "checkout.session.completed", ⟨some "u1", none, some "pro"⟩⟩]
    [] "u1" (by intro k r hk; simp [lookupKey] at hk)

/-- C10: a verified event of any type other than checkout.session.completed
is acknowledged with status 200 and body `{received true}` while the
persisted store is untouched (zero accesses), in all three handler
variants. -/
theorem C10_non_checkout_noop (ev : StripeEvent) (users : Store UserRec)
    (paid : Store PaidRec) (now : String)
    (h : ev.type ≠ "checkout.session.completed") :
    webhookHandler (.ok ev) paid now = ⟨200, .jsonReceived, paid, 0⟩ ∧
    stripeWebhookHandler (.ok ev) users = ⟨200, .jsonReceived, users, 0⟩ ∧
    stripeWebhookHandler2 (.ok ev) users = ⟨200, .jsonReceived, users, 0⟩ := by
  refine ⟨?_, ?_, ?_⟩ <;>
    simp [webhookHandler, stripeWebhookHandler, stripeWebhookHandler2, h]

/-- C10 witness: instantiated at an `invoice.paid` event. -/
theorem C10_non_checkout_noop_witness :
    webhookHandler (.ok ⟨"evt_10", "invoice.paid", ⟨none, none, none⟩⟩) [] "d"
      = ⟨200, .jsonReceived, [], 0⟩ ∧
    stripeWebhookHandler (.ok ⟨"evt_10", "invoice.paid", ⟨none, none, none⟩⟩) []
      = ⟨200, .jsonReceived, [], 0⟩ ∧
    stripeWebhookHandler2 (.ok ⟨"evt_10", "invoice.paid", ⟨none, none, none⟩⟩) []
      = ⟨200, .jsonReceived, [], 0⟩ :=
  C10_non_checkout_noop ⟨"evt_10", "invoice.paid", ⟨none, none, none⟩⟩ [] [] "d"
    (by decide)

/-- C6 counterexample: the claim says a completed-checkout event with no
user identity is rejected with a 4xx status and no entitlement record is
created or mutated.  The id-keyed `/stripe-webhook` variant instead
defaults the missing identity to the literal key `unknown`: on the empty
store it answers 200 and creates the record `unknown` with 150 coins
(the plan also defaults to pro). -/
theorem C6_counterexample :
    (stripeWebhookHandler2
        (.ok ⟨"evt_6", "checkout.session.completed", ⟨none, none, none⟩⟩)
        []).status = 200 ∧
    (stripeWebhookHandler2
        (.ok ⟨"evt_6", "checkout.session.completed", ⟨none, none, none⟩⟩)
        []).store = [("unknown", ⟨150, "pro"⟩)] := by
  decide

/-- C6 (amended): the `server.js` `/webhook` handler rejects a verified
completed-checkout event carrying no truthy user id with status 400 and
zero store accesses, while the id-keyed `/stripe-webhook` variant instead
answers 200 and credits the default key `unknown` with the coins of the
(possibly defaulted) plan. -/
theorem C6_missing_identity (eid now : String) (sess : Session)
    (users : Store UserRec) (paid : Store PaidRec)
    (h : truthy sess.user_id = none) :
    webhookHandler (.ok ⟨eid, "checkout.session.completed", sess⟩) paid now
      = ⟨400, .text "Missing user_id", paid, 0⟩ ∧
    (stripeWebhookHandler2 (.ok ⟨eid, "checkout.session.completed", sess⟩)
        users).status = 200 ∧
    lookupKey (stripeWebhookHandler2 (.ok ⟨eid, "checkout.session.completed", sess⟩)
        users).store "unknown"
      = some ⟨coinsOf users "unknown" + coinsFor ((truthy sess.plan).getD "pro"),
             (truthy sess.plan).getD "pro"⟩ := by
  refine ⟨?_, ?_, ?_⟩
  · simp [webhookHandler, h]
  · simp [stripeWebhookHandler2, h]
  · simp [stripeWebhookHandler2, h, lookupKey_setKey_self, coinsOf]

/-- C6 witness: instantiated at a session with no metadata at all. -/
theorem C6_missing_identity_witness :
    webhookHandler (.ok ⟨"evt_6b", "checkout.session.completed", ⟨none, none, none⟩⟩)
        [] "d" = ⟨400, .text "Missing user_id", [], 0⟩ ∧
    (stripeWebhookHandler2
        (.ok ⟨"evt_6b", "checkout.session.completed", ⟨none, none, none⟩⟩)
        []).status = 200 ∧
    lookupKey (stripeWebhookHandler2
        (.ok ⟨"evt_6b", "checkout.session.completed", ⟨none, none, none⟩⟩)
        []).store "unknown"
      = some ⟨coinsOf [] "unknown" + coinsFor ((truthy (none : Option String)).getD "pro"),
             (truthy (none : Option String)).getD "pro"⟩ :=
  C6_missing_identity "evt_6b" "d" ⟨none, none, none⟩ [] [] (by decide)

/-! ## Claims about the image search helper -/

/-- The fallback branch always produces exactly twelve image items. -/
theorem fallbackImages_length (q : String) : (fallbackImages q).length = 12 := by
  simp [fallbackImages, buildUnsplashFallback]

/-- C2 counterexample: the claim says the returned image list is
deduplicated by url (first occurrence wins) and has length at most 24.
On a Lexica response whose two entries share the url `u`, the helper
returns both entries, so the url list is not duplicate-free; and on a
Lexica response of 25 entries with pairwise distinct urls it returns all
25, exceeding the stated bound. -/
theorem C2_counterexample :
    ¬ (((searchImagesFree (some "cat")
        (.ok (some [⟨some "u", none, none, none, some "id1", some "t1"⟩,
                    ⟨some "u", none, none, none, some "id2", some "t2"⟩]))).images.map
        ImageItem.url).Nodup) ∧
    (searchImagesFree (some "cat")
        (.ok (some ((List.range 25).map fun i =>
          ⟨some ("u" ++ toString i), none, none, none, none, none⟩)))).images.length
      = 25 := by
  constructor
  · decide
  · decide

/-- C2 (amended): the helper returns the normalized results of the first
provider that yields anything, verbatim and in order, with no
deduplication and no truncation: either the full normalized Lexica list
(when nonempty), or the twelve locally built Unsplash fallback items. -/
theorem C2_first_provider_verbatim (query : Option String) (r : FetchOutcome) :
    ((searchImagesFree query r).images = fallbackImages (normQuery query) ∧
      (searchImagesFree query r).images.length = 12) ∨
    (∃ imgs, r = FetchOutcome.ok (some imgs) ∧
      (searchImagesFree query r).images = normalizeLexica imgs (normQuery query) ∧
      normalizeLexica imgs (normQuery query) ≠ []) := by
  cases r with
  | throwErr => exact Or.inl ⟨rfl, fallbackImages_length _⟩
  | notOk => exact Or.inl ⟨rfl, fallbackImages_length _⟩
  | ok o =>
    cases o with
    | none => exact Or.inl ⟨rfl, fallbackImages_length _⟩
    | some imgs =>
      by_cases h1 : imgs.length = 0
      · refine Or.inl ⟨?_, ?_⟩ <;>
          simp [searchImagesFree, searchCore, h1, fallbackImages_length]
      · by_cases h2 : (normalizeLexica imgs (normQuery query)).length = 0
        · refine Or.inl ⟨?_, ?_⟩ <;>
            simp [searchImagesFree, searchCore, h1, h2, fallbackImages_length]
        · refine Or.inr ⟨imgs, rfl, ?_, ?_⟩
          · simp [searchImagesFree, searchCore, h1, h2]
          · intro hnil
            exact h2 (by simp [hnil])

/-- C3 counterexample: the claim says that when every provider fails the
helper returns an empty images sequence.  When the Lexica fetch throws,
the helper instead synthesizes twelve Unsplash Source urls locally, so
the images sequence is not empty. -/
theorem C3_counterexample :
    (searchImagesFree (some "anything") FetchOutcome.throwErr).images ≠ [] := by
  decide

/-- C3 (amended): whenever the primary Lexica provider fails (transport
error, non-2xx, unparseable body, or a parsed result whose normalization
is empty), the helper returns, without throwing, a well-formed response
whose images are the twelve locally built Unsplash fallback items and
whose sources are the 4 static search-engine links; the fallback is
local, so a response with an empty images sequence is impossible. -/
theorem C3_fallback_on_failure (query : Option String) (r : FetchOutcome)
    (h : ∀ imgs, r = FetchOutcome.ok (some imgs) →
      normalizeLexica imgs (normQuery query) = []) :
    searchImagesFree query r =
      { images := fallbackImages (normQuery query)
        sources := fallbackSources (normQuery query) } ∧
    (searchImagesFree query r).images.length = 12 ∧
    (searchImagesFree query r).sources.length = 4 := by
  have hmain : searchImagesFree query r =
      { images := fallbackImages (normQuery query)
        sources := fallbackSources (normQuery query) } := by
    cases r with
    | throwErr => rfl
    | notOk => rfl
    | ok o =>
      cases o with
      | none => rfl
      | some imgs =>
        have h3 := h imgs rfl
        simp [searchImagesFree, searchCore, h3]
  refine ⟨hmain, ?_, ?_⟩
  · rw [hmain]
    exact fallbackImages_length _
  · rw [hmain]
    rfl

/-- C3 witness: instantiated at the query `anything` with a throwing
Lexica fetch. -/
theorem C3_fallback_on_failure_witness :
    searchImagesFree (some "anything") FetchOutcome.throwErr =
      { images := fallbackImages (normQuery (some "anything"))
        sources := fallbackSources (normQuery (some "anything")) } ∧
    (searchImagesFree (some "anything") FetchOutcome.throwErr).images.length = 12 ∧
    (searchImagesFree (some "anything") FetchOutcome.throwErr).sources.length = 4 :=
  C3_fallback_on_failure (some "anything") FetchOutcome.throwErr
    (fun _ hh => nomatch hh)

/-- C9: a query that is absent (null or undefined), empty, or made only of
whitespace characters normalizes to the default `image`, so the helper
behaves on it exactly as on the query `image`, whatever the provider
outcome. -/
theorem C9_blank_query_default (query : Option String) (r : FetchOutcome)
    (h : (jsStr query).data.all isJsWhitespace = true) :
    searchImagesFree query r = searchImagesFree (some "image") r := by
  have hdrop : (jsStr query).data.dropWhile isJsWhitespace = [] := by
    rw [List.dropWhile_eq_nil_iff]
    intro x hx
    exact List.all_eq_true.mp h x hx
  have htrim : jsTrim (jsStr query) = "" := by
    simp [jsTrim, hdrop]
  have hq : normQuery query = "image" := by
    simp [normQuery, htrim]
  have hi : normQuery (some "image") = "image" := by decide
  show searchCore (normQuery query) r = searchCore (normQuery (some "image")) r
  rw [hq, hi]

/-- C9 witness: instantiated at a whitespace-only query and a throwing
fetch. -/
theorem C9_blank_query_default_witness :
    searchImagesFree (some "  ") FetchOutcome.throwErr
      = searchImagesFree (some "image") FetchOutcome.throwErr :=
  C9_blank_query_default (some "  ") FetchOutcome.throwErr (by decide)

end Droxion
